import Mathlib

/-!
Verification of the Results Analytics & Multi-View Rendering Engine of the
traffic-sync dashboard (app/js/utils.js, app/js/charts.js and the request /
chart-selection handlers).

JavaScript numbers are modelled as rationals (ℚ).  The only places where the
code can produce the special float values `-Infinity` / `NaN`
(`Math.max` over a spread of arrays, and index-times-max in the scatter
reference line) are modelled with the `JNum` type.  A JavaScript `TypeError`
thrown by dereferencing `undefined` (empty-batch access to `array[0]`) is
modelled by returning `none`.  The exact decimal rendering of numbers inside
display strings (`toFixed`, template interpolation) is immaterial to every
property below; it is modelled by executable helpers with round-half-up
rounding.
-/

/-- `impact` object of an OptimizationResult (nullable in the data model). -/
structure Impact where
  original_congestion : ℚ
  optimized_congestion : ℚ
  original_category : String
  optimized_category : String
deriving DecidableEq

/-- `optimization` object of an OptimizationResult (nullable). -/
structure Optimization where
  green_time_sec : ℚ
  red_time_sec : ℚ
deriving DecidableEq

/-- One item of a ResultBatch, the unit the engine operates on. -/
structure OptimizationResult where
  traffic_light_id : String
  optimization : Option Optimization
  impact : Option Impact
deriving DecidableEq

/-- The idiom `d.impact?.original_congestion || 0` (missing impact → 0). -/
def impactOriginal (d : OptimizationResult) : ℚ :=
  match d.impact with
  | none => 0
  | some i => i.original_congestion

/-- The idiom `d.impact?.optimized_congestion || 0`. -/
def impactOptimized (d : OptimizationResult) : ℚ :=
  match d.impact with
  | none => 0
  | some i => i.optimized_congestion

/-- The idiom `d.optimization?.green_time_sec || 0`. -/
def optGreenTime (d : OptimizationResult) : ℚ :=
  match d.optimization with
  | none => 0
  | some o => o.green_time_sec

/-- The idiom `d.optimization?.red_time_sec || 0`. -/
def optRedTime (d : OptimizationResult) : ℚ :=
  match d.optimization with
  | none => 0
  | some o => o.red_time_sec

/-- JavaScript number values reachable in this code: a rational, `-Infinity`
(`Math.max()` over an empty spread) or `NaN` (`0 * -Infinity`). -/
inductive JNum where
  | nan : JNum
  | neginf : JNum
  | num : ℚ → JNum
deriving DecidableEq

/-- One step of `Math.max` folding a plain number into the accumulator. -/
def jmaxQ : JNum → ℚ → JNum
  | .nan, _ => .nan
  | .neginf, q => .num q
  | .num a, q => .num (max a q)

/-- `Math.max(...l)` over a list of plain numbers: fold from `-Infinity`. -/
def jsMaxQ (l : List ℚ) : JNum :=
  l.foldl jmaxQ .neginf

/-- Multiplication of a nonnegative integer index by a `JNum`
(`0 * -Infinity = NaN`, `(n+1) * -Infinity = -Infinity`). -/
def jmulNat : ℕ → JNum → JNum
  | _, .nan => .nan
  | n, .num q => .num ((n : ℚ) * q)
  | 0, .neginf => .nan
  | _ + 1, .neginf => .neginf

/-- `q.toFixed(1)` rendering (round half up; exact tie behaviour of float
`toFixed` is immaterial to the verified properties). -/
def toFixed1 (q : ℚ) : String :=
  let n : ℤ := round (q * 10)
  let sign := if n < 0 then "-" else ""
  let m := n.natAbs
  sign ++ toString (m / 10) ++ "." ++ toString (m % 10)

/-- `q.toFixed(0)` rendering. -/
def toFixed0 (q : ℚ) : String :=
  toString (round q : ℤ)

/-- `toFixed(1)` applied to a possibly non-finite value
(`(-Infinity).toFixed(1) = "-Infinity"`). -/
def jnumToFixed1 : JNum → String
  | .nan => "NaN"
  | .neginf => "-Infinity"
  | .num q => toFixed1 q

/-- Template-string rendering of a number (decimal spelling immaterial to the
verified properties). -/
def numStr (q : ℚ) : String :=
  if q.den = 1 then toString q.num else toString q

/-! ## The four embedded improvement-percentage computations -/

/-- Per-item improvements computed in `updateMetricsCards` (utils.js 52–55):
`originalCongestions.map((orig, i) => { const opt = optimizedCongestions[i];
return orig > 0 ? ((orig - opt) / orig) * 100 : 0; })`. -/
def metricsImprovements (l : List OptimizationResult) : List ℚ :=
  List.zipWith (fun orig opt => if orig > 0 then (orig - opt) / orig * 100 else 0)
    (l.map impactOriginal) (l.map impactOptimized)

/-- Per-item improvements computed in `createPieChart` (charts.js 127–131). -/
def pieImprovements (l : List OptimizationResult) : List ℚ :=
  l.map (fun d =>
    let original := impactOriginal d
    let optimized := impactOptimized d
    if original > 0 then (original - optimized) / original * 100 else 0)

/-- Per-item improvements computed inside the scatter chart's point-colour
callback (charts.js 267–274). -/
def scatterImprovements (l : List OptimizationResult) : List ℚ :=
  List.zipWith (fun orig opt => if orig > 0 then (orig - opt) / orig * 100 else 0)
    (l.map impactOriginal) (l.map impactOptimized)

/-- Per-item improvements computed in `createImprovementChart`
(charts.js 395–399). -/
def improvementChartImprovements (l : List OptimizationResult) : List ℚ :=
  l.map (fun d =>
    let original := impactOriginal d
    let optimized := impactOptimized d
    if original > 0 then (original - optimized) / original * 100 else 0)

/-- The spec's invariant formula:
`improvement_pct(item) = original>0 ? (original-optimized)/original*100 : 0`,
a missing or null impact treated as both congestions being 0. -/
def improvement_pct (d : OptimizationResult) : ℚ :=
  match d.impact with
  | none => 0
  | some i =>
    if i.original_congestion > 0 then
      (i.original_congestion - i.optimized_congestion) / i.original_congestion * 100
    else 0

/-! ## Metrics Aggregator (utils.js `updateMetricsCards`) -/

/-- `avgOriginal` of utils.js 44–45: `reduce((a,b)=>a+b,0) / length`. -/
def avgOriginalCongestion (l : List OptimizationResult) : ℚ :=
  (l.map impactOriginal).foldl (· + ·) 0 / ((l.map impactOriginal).length : ℚ)

/-- `avgOptimized` of utils.js 46–48. -/
def avgOptimizedCongestion (l : List OptimizationResult) : ℚ :=
  (l.map impactOptimized).foldl (· + ·) 0 / ((l.map impactOptimized).length : ℚ)

/-- `avgReduction` of utils.js 49–50. -/
def avgReduction (l : List OptimizationResult) : ℚ :=
  if avgOriginalCongestion l > 0 then
    (avgOriginalCongestion l - avgOptimizedCongestion l) / avgOriginalCongestion l * 100
  else 0

/-- Arithmetic mean of a list of rationals (spec-side definition). -/
def meanQ (xs : List ℚ) : ℚ :=
  xs.sum / (xs.length : ℚ)

/-- The four summary metric cards' displayed text. -/
structure MetricsCards where
  avgReductionText : String
  bestImprovementText : String
  avgGreenTimeText : String
  optimizedSensorsText : String
deriving DecidableEq

/-- Card contents computed on the non-empty path of `updateMetricsCards`. -/
def computeMetricsCards (l : List OptimizationResult) : MetricsCards :=
  let greenTimes := l.map optGreenTime
  let improvements := metricsImprovements l
  let bestImprovement := jsMaxQ improvements
  let avgGreenTime := greenTimes.foldl (· + ·) 0 / (greenTimes.length : ℚ)
  let optimizedSensors := (improvements.filter (fun imp => decide (0 < imp))).length
  let totalSensors := l.length
  { avgReductionText := toFixed1 (avgReduction l) ++ "%"
    bestImprovementText := jnumToFixed1 bestImprovement ++ "%"
    avgGreenTimeText := toFixed0 avgGreenTime ++ "s"
    optimizedSensorsText := toString optimizedSensors ++ "/" ++ toString totalSensors }

/-! ## Chart Projection Builder (charts.js) -/

/-- The common label sequence: `latestResults.map((_, i) => "Sensor " + (i+1))`. -/
def sensorLabels (l : List OptimizationResult) : List String :=
  (List.range l.length).map (fun i => "Sensor " ++ toString (i + 1))

/-- One dataset of a bar/line/stacked/comparison chart (visual-only style
constants such as `tension`/`fill`/`borderWidth` are omitted). -/
structure Series where
  label : String
  data : List ℚ
  backgroundColor : String
  borderColor : String
deriving DecidableEq

/-- Chart data for the bar and line charts. -/
structure CongestionChart where
  title : String
  labels : List String
  datasets : List Series
deriving DecidableEq

/-- `createBarChart` (charts.js 35–77).  `latestResults[0]` on an empty batch
is `undefined`, so `firstResult.impact` throws: modelled by `none`. -/
def createBarChart (l : List OptimizationResult) : Option CongestionChart :=
  match l with
  | [] => none
  | firstResult :: _ =>
    let labels := sensorLabels l
    let datasets :=
      if firstResult.impact.isSome then
        [{ label := "Original Congestion"
           data := l.map impactOriginal
           backgroundColor := "rgba(255, 99, 132, 0.8)"
           borderColor := "rgba(255, 99, 132, 1)" },
         { label := "Optimized Congestion"
           data := l.map impactOptimized
           backgroundColor := "rgba(75, 192, 192, 0.8)"
           borderColor := "rgba(75, 192, 192, 1)" }]
      else []
    some { title := "Congestion Levels - Before vs After Optimization"
           labels := labels
           datasets := datasets }

/-- `createLineChart` (charts.js 79–123); same first-item gate as the bar
chart, different colours. -/
def createLineChart (l : List OptimizationResult) : Option CongestionChart :=
  match l with
  | [] => none
  | firstResult :: _ =>
    let labels := sensorLabels l
    let datasets :=
      if firstResult.impact.isSome then
        [{ label := "Original Congestion"
           data := l.map impactOriginal
           backgroundColor := "rgba(255, 205, 86, 0.1)"
           borderColor := "rgba(255, 205, 86, 1)" },
         { label := "Optimized Congestion"
           data := l.map impactOptimized
           backgroundColor := "rgba(153, 102, 255, 0.1)"
           borderColor := "rgba(153, 102, 255, 1)" }]
      else []
    some { title := "Congestion Trends - Before vs After Optimization"
           labels := labels
           datasets := datasets }

/-- Filter predicate `imp >= 50` of the pie chart. -/
def excellentPred (imp : ℚ) : Bool :=
  decide (50 ≤ imp)

/-- Filter predicate `imp >= 25 && imp < 50`. -/
def goodPred (imp : ℚ) : Bool :=
  decide (25 ≤ imp ∧ imp < 50)

/-- Filter predicate `imp >= 10 && imp < 25`. -/
def moderatePred (imp : ℚ) : Bool :=
  decide (10 ≤ imp ∧ imp < 25)

/-- Filter predicate `imp >= 0 && imp < 10`. -/
def lowPred (imp : ℚ) : Bool :=
  decide (0 ≤ imp ∧ imp < 10)

/-- Filter predicate `imp < 0`. -/
def noImprovementPred (imp : ℚ) : Bool :=
  decide (imp < 0)

/-- Chart data for the pie chart: labels, the five category counts, colours. -/
structure PieChart where
  title : String
  labels : List String
  data : List ℕ
  backgroundColor : List String
  borderColor : List String
deriving DecidableEq

/-- `createPieChart` (charts.js 125–189). -/
def createPieChart (l : List OptimizationResult) : PieChart :=
  let improvements := pieImprovements l
  let excellent := (improvements.filter excellentPred).length
  let good := (improvements.filter goodPred).length
  let moderate := (improvements.filter moderatePred).length
  let low := (improvements.filter lowPred).length
  let noImprovement := (improvements.filter noImprovementPred).length
  { title := "Distribution of Improvement Levels"
    labels := ["Excellent (≥50%)", "Good (25-49%)", "Moderate (10-24%)",
               "Low (0-9%)", "No Improvement"]
    data := [excellent, good, moderate, low, noImprovement]
    backgroundColor := ["rgba(75, 192, 192, 0.8)", "rgba(54, 162, 235, 0.8)",
                        "rgba(255, 205, 86, 0.8)", "rgba(255, 159, 64, 0.8)",
                        "rgba(255, 99, 132, 0.8)"]
    borderColor := ["rgba(75, 192, 192, 1)", "rgba(54, 162, 235, 1)",
                    "rgba(255, 205, 86, 1)", "rgba(255, 159, 64, 1)",
                    "rgba(255, 99, 132, 1)"] }

/-- Chart data for the stacked-bar chart. -/
structure StackedChart where
  title : String
  labels : List String
  datasets : List Series
deriving DecidableEq

/-- `createStackedChart` (charts.js 191–243). -/
def createStackedChart (l : List OptimizationResult) : StackedChart :=
  let labels := sensorLabels l
  let greenTimes := l.map optGreenTime
  let redTimes := l.map optRedTime
  { title := "Traffic Light Timing Distribution"
    labels := labels
    datasets :=
      [{ label := "Green Time"
         data := greenTimes
         backgroundColor := "rgba(75, 192, 192, 0.8)"
         borderColor := "rgba(75, 192, 192, 1)" },
       { label := "Red Time"
         data := redTimes
         backgroundColor := "rgba(255, 99, 132, 0.8)"
         borderColor := "rgba(255, 99, 132, 1)" }] }

/-- The scatter chart's five-colour point palette (charts.js 270–274). -/
def scatterColor (improvement : ℚ) : String :=
  if 50 ≤ improvement then "rgba(75, 192, 192, 0.8)"
  else if 25 ≤ improvement then "rgba(54, 162, 235, 0.8)"
  else if 10 ≤ improvement then "rgba(255, 205, 86, 0.8)"
  else if 0 ≤ improvement then "rgba(255, 159, 64, 0.8)"
  else "rgba(255, 99, 132, 0.8)"

/-- Chart data for the scatter chart. -/
structure ScatterChart where
  title : String
  pointsLabel : String
  points : List (ℚ × ℚ)
  pointColors : List String
  refLabel : String
  refPoints : List (JNum × JNum)
deriving DecidableEq

/-- `createScatterChart` (charts.js 245–342).  `maxValue` is
`Math.max(...originalData, ...optimizedData)`; the reference series is built
from the two indices of `referenceLine` as `(index*maxValue, index*maxValue)`. -/
def createScatterChart (l : List OptimizationResult) : ScatterChart :=
  let originalData := l.map impactOriginal
  let optimizedData := l.map impactOptimized
  let maxValue := jsMaxQ (originalData ++ optimizedData)
  let referenceLine := (List.range 2).map (fun i => jmulNat i maxValue)
  { title := "Optimization Effectiveness: Original vs Optimized Congestion"
    pointsLabel := "Optimization Results"
    points := List.zipWith (fun x y => (x, y)) originalData optimizedData
    pointColors := (scatterImprovements l).map scatterColor
    refLabel := "No Change Line"
    refPoints := (List.range referenceLine.length).map
      (fun index => (jmulNat index maxValue, jmulNat index maxValue)) }

/-- Chart data for the comparison chart. -/
structure ComparisonChart where
  title : String
  labels : List String
  datasets : List Series
deriving DecidableEq

/-- `createComparisonChart` (charts.js 344–391). -/
def createComparisonChart (l : List OptimizationResult) : ComparisonChart :=
  let labels := sensorLabels l
  let originalData := l.map impactOriginal
  let optimizedData := l.map impactOptimized
  { title := "Before vs After Optimization Comparison"
    labels := labels
    datasets :=
      [{ label := "Before Optimization"
         data := originalData
         backgroundColor := "rgba(255, 99, 132, 0.8)"
         borderColor := "rgba(255, 99, 132, 1)" },
       { label := "After Optimization"
         data := optimizedData
         backgroundColor := "rgba(75, 192, 192, 0.8)"
         borderColor := "rgba(75, 192, 192, 1)" }] }

/-- Chart data for the improvement-percentage chart: one bar per item, a
per-bar colour list. -/
structure ImprovementChart where
  title : String
  label : String
  labels : List String
  data : List ℚ
  backgroundColor : List String
  borderColor : List String
deriving DecidableEq

/-- `createImprovementChart` (charts.js 393–443).  Colours use `value > 0`. -/
def createImprovementChart (l : List OptimizationResult) : ImprovementChart :=
  let labels := sensorLabels l
  let improvementData := improvementChartImprovements l
  { title := "Percentage Improvement per Sensor"
    label := "Improvement %"
    labels := labels
    data := improvementData
    backgroundColor := improvementData.map (fun value =>
      if value > 0 then "rgba(75, 192, 192, 0.8)" else "rgba(255, 99, 132, 0.8)")
    borderColor := improvementData.map (fun value =>
      if value > 0 then "rgba(75, 192, 192, 1)" else "rgba(255, 99, 132, 1)") }

/-- The seven chart kinds selectable by the `chartType` radio group. -/
inductive ChartKind where
  | bar | line | pie | stacked | scatter | comparison | improvement
deriving DecidableEq

/-- A built chart, tagged by kind. -/
inductive ChartSpec where
  | bar : CongestionChart → ChartSpec
  | line : CongestionChart → ChartSpec
  | pie : PieChart → ChartSpec
  | stacked : StackedChart → ChartSpec
  | scatter : ScatterChart → ChartSpec
  | comparison : ComparisonChart → ChartSpec
  | improvement : ImprovementChart → ChartSpec
deriving DecidableEq

/-- `updateChart` (charts.js 3–33): destroys the current chart and dispatches
on the chart type; `none` models a builder throwing. -/
def updateChart (chartType : ChartKind) (l : List OptimizationResult) :
    Option ChartSpec :=
  match chartType with
  | .bar => (createBarChart l).map ChartSpec.bar
  | .line => (createLineChart l).map ChartSpec.line
  | .pie => some (ChartSpec.pie (createPieChart l))
  | .stacked => some (ChartSpec.stacked (createStackedChart l))
  | .scatter => some (ChartSpec.scatter (createScatterChart l))
  | .comparison => some (ChartSpec.comparison (createComparisonChart l))
  | .improvement => some (ChartSpec.improvement (createImprovementChart l))

/-! ## Table Formatter (utils.js 75–122) -/

/-- `formatOptimizationData` (utils.js 75–78). -/
def formatOptimizationData (optimization : Option Optimization) : String :=
  match optimization with
  | none => "N/A"
  | some o =>
    "Green: " ++ numStr o.green_time_sec ++ "s, Red: " ++ numStr o.red_time_sec ++ "s"

/-- `formatImpactData` (utils.js 80–91). -/
def formatImpactData (impact : Option Impact) : String :=
  match impact with
  | none => "N/A"
  | some i =>
    let improvement :=
      if i.original_congestion > 0 then
        toFixed1 ((i.original_congestion - i.optimized_congestion) /
          i.original_congestion * 100)
      else "0.0"
    "Original: " ++ numStr i.original_congestion ++ " (" ++ i.original_category ++
      "), Optimized: " ++ numStr i.optimized_congestion ++ " (" ++
      i.optimized_category ++ "), Improvement: " ++ improvement ++ "%"

/-- A formatted table row: the nested `optimization` and `impact` objects have
been replaced by pre-rendered strings (utils.js 101–105). -/
structure FormattedRow where
  traffic_light_id : String
  optimization : String
  impact : String
deriving DecidableEq

/-- The spread-plus-override of utils.js 101–105 applied to one item. -/
def formatRow (item : OptimizationResult) : FormattedRow :=
  { traffic_light_id := item.traffic_light_id
    optimization := formatOptimizationData item.optimization
    impact := formatImpactData item.impact }

/-- Column title derivation (utils.js 109):
`key.charAt(0).toUpperCase() + key.slice(1).replace(/_/g, " ")`. -/
def formatColumnTitle (key : String) : String :=
  match key.data with
  | [] => ""
  | c :: rest =>
    String.mk (c.toUpper :: rest.map (fun ch => if ch = '_' then ' ' else ch))

/-- One bootstrap-table column descriptor (the HTML cell formatter closure is
display-only and omitted). -/
structure Column where
  field : String
  title : String
  sortable : Bool
deriving DecidableEq

/-- `Object.keys(formattedData[0])` for a formatted row. -/
def rowKeys : List String :=
  ["traffic_light_id", "optimization", "impact"]

/-- Table construction of `showResults` (utils.js 101–122): format every row,
then derive the column set from the keys of the first formatted row.  On an
empty batch `formattedData[0]` is `undefined` and `Object.keys` throws:
modelled by `none`. -/
def formatTableData (data : List OptimizationResult) :
    Option (List Column × List FormattedRow) :=
  let formattedData := data.map formatRow
  match formattedData with
  | [] => none
  | _ :: _ =>
    let columns := rowKeys.map (fun key =>
      { field := key, title := formatColumnTitle key, sortable := true })
    some (columns, formattedData)

/-! ## View Orchestrator -/

/-- The UI state: the Result Store (`latestResults`), the chart-type radio
selection, the three section visibilities, the rotating-message interval, the
metric cards, the rendered table and the current chart. -/
structure UIState where
  latestResults : List OptimizationResult
  selectedChartKind : ChartKind
  loadingVisible : Bool
  resultsVisible : Bool
  chartsVisible : Bool
  intervalActive : Bool
  cards : MetricsCards
  table : Option (List Column × List FormattedRow)
  currentChart : Option ChartSpec
deriving DecidableEq

/-- `showLoading` (utils.js 10–19): shows the spinner, hides the results and
charts sections, starts the rotation interval. -/
def showLoading (s : UIState) : UIState :=
  { s with loadingVisible := true
           resultsVisible := false
           chartsVisible := false
           intervalActive := true }

/-- `hideLoading` (utils.js 21–24): clears the interval, hides the spinner —
and nothing else. -/
def hideLoading (s : UIState) : UIState :=
  { s with intervalActive := false
           loadingVisible := false }

/-- `updateMetricsCards` (utils.js 30–73) as a state transformer: early
return on an empty batch, otherwise writes the four cards. -/
def updateMetricsCards (s : UIState) : UIState :=
  if s.latestResults.length = 0 then s
  else { s with cards := computeMetricsCards s.latestResults }

/-- `showResults` (utils.js 93–127): hide the spinner, overwrite the Result
Store, show the sections, build the table, run `updateChart("bar")` (the
chart kind is hard-coded), then update the metric cards.  `none` models a
thrown `TypeError` (empty batch). -/
def showResults (s : UIState) (data : List OptimizationResult) :
    Option UIState :=
  let s1 := hideLoading s
  let s2 := { s1 with latestResults := data
                      resultsVisible := true
                      chartsVisible := true }
  match formatTableData data with
  | none => none
  | some tbl =>
    match updateChart ChartKind.bar data with
    | none => none
    | some ch =>
      some (updateMetricsCards
        { s2 with table := some tbl, currentChart := some ch })

/-- The `chartType` radio `change` listener (index script): the radio becomes
checked, and `updateChart(this.value)` runs only when the Result Store is
non-empty. -/
def onChartTypeChange (s : UIState) (k : ChartKind) : Option UIState :=
  let s1 := { s with selectedChartKind := k }
  if 0 < s1.latestResults.length then
    match updateChart k s1.latestResults with
    | none => none
    | some ch => some { s1 with currentChart := some ch }
  else some s1

/-- The failure path of `evaluateManual` / `evaluateRandom`: `showLoading()`
ran before the request; the `catch` block runs `hideLoading()` and
`alert("Error: " + error.message)`.  Returns the post-failure state and the
notification text. -/
def evaluateFailure (s : UIState) (msg : String) : UIState × String :=
  let s1 := showLoading s
  let s2 := hideLoading s1
  (s2, "Error: " ++ msg)

/-! ## Concrete inputs used by witnesses and counterexamples -/

/-- A result with an 80% improvement (10 → 2). -/
def itemWithImpact : OptimizationResult :=
  { traffic_light_id := "TL001"
    optimization := some { green_time_sec := 42, red_time_sec := 48 }
    impact := some { original_congestion := 10, optimized_congestion := 2
                     original_category := "severe", optimized_category := "mild" } }

/-- A result with null `optimization` and null `impact`. -/
def itemNoImpact : OptimizationResult :=
  { traffic_light_id := "TL002"
    optimization := none
    impact := none }

/-- A result with improvement exactly 0% (5 → 5). -/
def itemZeroImprovement : OptimizationResult :=
  { traffic_light_id := "TL003"
    optimization := none
    impact := some { original_congestion := 5, optimized_congestion := 5
                     original_category := "mild", optimized_category := "mild" } }

/-- Blank metric cards. -/
def emptyCards : MetricsCards :=
  { avgReductionText := ""
    bestImprovementText := ""
    avgGreenTimeText := ""
    optimizedSensorsText := "" }

/-- A Loading state in which the user has previously selected the pie chart. -/
def statePieSelected : UIState :=
  { latestResults := [itemWithImpact]
    selectedChartKind := ChartKind.pie
    loadingVisible := true
    resultsVisible := false
    chartsVisible := false
    intervalActive := true
    cards := emptyCards
    table := none
    currentChart := none }

/-- A Results state with results currently displayed. -/
def stateResultsShown : UIState :=
  { latestResults := [itemWithImpact]
    selectedChartKind := ChartKind.bar
    loadingVisible := false
    resultsVisible := true
    chartsVisible := true
    intervalActive := false
    cards := emptyCards
    table := none
    currentChart := none }

/-- An Idle state with an empty Result Store. -/
def stateIdleEmpty : UIState :=
  { latestResults := []
    selectedChartKind := ChartKind.bar
    loadingVisible := false
    resultsVisible := false
    chartsVisible := false
    intervalActive := false
    cards := emptyCards
    table := none
    currentChart := none }

/-! ## Helper lemmas -/

/-- `zipWith` of two maps over the same list is a single map. -/
theorem zipWith_map_same (f : ℚ → ℚ → ℚ) (g h : OptimizationResult → ℚ)
    (l : List OptimizationResult) :
    List.zipWith f (l.map g) (l.map h) = l.map (fun d => f (g d) (h d)) := by
  induction l with
  | nil => rfl
  | cons d ds ih => simp [ih]

/-- The inlined improvement formula agrees pointwise with `improvement_pct`. -/
theorem improvement_pointwise (d : OptimizationResult) :
    (if impactOriginal d > 0 then
      (impactOriginal d - impactOptimized d) / impactOriginal d * 100
    else 0) = improvement_pct d := by
  cases h : d.impact with
  | none => simp [impactOriginal, impactOptimized, improvement_pct, h]
  | some i => simp [impactOriginal, impactOptimized, improvement_pct, h]

theorem metricsImprovements_eq (l : List OptimizationResult) :
    metricsImprovements l = l.map improvement_pct := by
  simp only [metricsImprovements, zipWith_map_same, improvement_pointwise]

theorem pieImprovements_eq (l : List OptimizationResult) :
    pieImprovements l = l.map improvement_pct := by
  simp only [pieImprovements, improvement_pointwise]

theorem scatterImprovements_eq (l : List OptimizationResult) :
    scatterImprovements l = l.map improvement_pct := by
  simp only [scatterImprovements, zipWith_map_same, improvement_pointwise]

theorem improvementChartImprovements_eq (l : List OptimizationResult) :
    improvementChartImprovements l = l.map improvement_pct := by
  simp only [improvementChartImprovements, improvement_pointwise]

/-- Left fold of addition equals the accumulator plus the sum. -/
theorem foldl_add_eq_sum (xs : List ℚ) : ∀ a : ℚ, xs.foldl (· + ·) a = a + xs.sum := by
  induction xs with
  | nil => intro a; simp
  | cons x xs ih => intro a; simp [ih]; ring

theorem le_foldl_max (xs : List ℚ) : ∀ a b : ℚ, a ≤ b → a ≤ xs.foldl max b := by
  induction xs with
  | nil => intro a b h; simpa using h
  | cons x xs ih => intro a b h; exact ih a (max b x) (le_trans h (le_max_left _ _))

theorem mem_le_foldl_max (xs : List ℚ) : ∀ b x : ℚ, x ∈ xs → x ≤ xs.foldl max b := by
  induction xs with
  | nil => intro b x h; cases h
  | cons y ys ih =>
    intro b x h
    rcases List.mem_cons.mp h with rfl | h
    · exact le_foldl_max ys x (max b x) (le_max_right _ _)
    · exact ih (max b y) x h

theorem foldl_max_le (xs : List ℚ) :
    ∀ a m : ℚ, a ≤ m → (∀ x ∈ xs, x ≤ m) → xs.foldl max a ≤ m := by
  induction xs with
  | nil => intro a m h _; simpa using h
  | cons x xs ih =>
    intro a m h hub
    exact ih (max a x) m (max_le h (hub x (List.mem_cons_self x xs)))
      (fun y hy => hub y (List.mem_cons_of_mem _ hy))

/-- Folding `jmaxQ` from a finite accumulator tracks the plain fold of `max`. -/
theorem foldl_jmaxQ_num (xs : List ℚ) :
    ∀ a : ℚ, xs.foldl jmaxQ (JNum.num a) = JNum.num (xs.foldl max a) := by
  induction xs with
  | nil => intro a; rfl
  | cons x xs ih => intro a; simp [List.foldl_cons, jmaxQ, ih]

/-- `Math.max` over a non-empty list returns its maximum. -/
theorem jsMaxQ_eq_max (l : List ℚ) (m : ℚ) (hmem : m ∈ l)
    (hub : ∀ x ∈ l, x ≤ m) : jsMaxQ l = JNum.num m := by
  cases l with
  | nil => cases hmem
  | cons x xs =>
    rw [jsMaxQ, List.foldl_cons, show jmaxQ JNum.neginf x = JNum.num x from rfl,
      foldl_jmaxQ_num]
    congr 1
    apply le_antisymm
    · exact foldl_max_le xs x m (hub x (List.mem_cons_self x xs))
        (fun y hy => hub y (List.mem_cons_of_mem _ hy))
    · rcases List.mem_cons.mp hmem with rfl | hm
      · exact le_foldl_max xs m m le_rfl
      · exact mem_le_foldl_max xs x m hm

/-- Every rational falls in exactly one of the five pie buckets. -/
theorem pieBucket_pointwise (q : ℚ) :
    ((if excellentPred q = true then 1 else 0) +
     (if goodPred q = true then 1 else 0) +
     (if moderatePred q = true then 1 else 0) +
     (if lowPred q = true then 1 else 0) +
     (if noImprovementPred q = true then 1 else 0) : ℕ) = 1 := by
  simp only [excellentPred, goodPred, moderatePred, lowPred, noImprovementPred,
    decide_eq_true_eq]
  rcases le_or_lt 50 q with h50 | h50
  · have hg : ¬(25 ≤ q ∧ q < 50) := fun h => absurd h50 (not_le.mpr h.2)
    have hm : ¬(10 ≤ q ∧ q < 25) := fun h => by linarith [h.2]
    have hl : ¬(0 ≤ q ∧ q < 10) := fun h => by linarith [h.2]
    have hn : ¬(q < 0) := by linarith
    simp [h50, hg, hm, hl, hn]
  · rcases le_or_lt 25 q with h25 | h25
    · have he : ¬(50 ≤ q) := not_le.mpr h50
      have hm : ¬(10 ≤ q ∧ q < 25) := fun h => by linarith [h.2]
      have hl : ¬(0 ≤ q ∧ q < 10) := fun h => by linarith [h.2]
      have hn : ¬(q < 0) := by linarith
      simp [he, h25, h50, hm, hl, hn]
    · rcases le_or_lt 10 q with h10 | h10
      · have he : ¬(50 ≤ q) := by intro h; linarith
        have hg : ¬(25 ≤ q ∧ q < 50) := fun h => by linarith [h.1]
        have hl : ¬(0 ≤ q ∧ q < 10) := fun h => by linarith [h.2]
        have hn : ¬(q < 0) := by linarith
        simp [he, hg, h10, h25, hl, hn]
      · rcases le_or_lt 0 q with h0 | h0
        · have he : ¬(50 ≤ q) := by intro h; linarith
          have hg : ¬(25 ≤ q ∧ q < 50) := fun h => by linarith [h.1]
          have hm : ¬(10 ≤ q ∧ q < 25) := fun h => by linarith [h.1]
          have hn : ¬(q < 0) := by linarith
          simp [he, hg, hm, h0, h10, hn]
        · have he : ¬(50 ≤ q) := by intro h; linarith
          have hg : ¬(25 ≤ q ∧ q < 50) := fun h => by linarith [h.1]
          have hm : ¬(10 ≤ q ∧ q < 25) := fun h => by linarith [h.1]
          have hl : ¬(0 ≤ q ∧ q < 10) := fun h => by linarith [h.1]
          simp [he, hg, hm, hl, h0]

/-- The five pie filters partition any list of improvements. -/
theorem pie_filter_sum (xs : List ℚ) :
    (xs.filter excellentPred).length + (xs.filter goodPred).length +
      (xs.filter moderatePred).length + (xs.filter lowPred).length +
      (xs.filter noImprovementPred).length = xs.length := by
  induction xs with
  | nil => rfl
  | cons x xs ih =>
    have hx := pieBucket_pointwise x
    cases he : excellentPred x <;> cases hg : goodPred x <;>
      cases hm : moderatePred x <;> cases hl : lowPred x <;>
      cases hn : noImprovementPred x <;>
      simp_all [List.filter_cons] <;> omega

/-- Builders succeed on every non-empty batch. -/
theorem updateChart_isSome_of_ne_nil (k : ChartKind) (d : OptimizationResult)
    (ds : List OptimizationResult) : (updateChart k (d :: ds)).isSome := by
  cases k <;> rfl

/-! ## Claim theorems -/

/-- C1: every consumer of the improvement percentage — the Metrics
Aggregator's per-item improvements, the pie chart's bucketing input, the
scatter chart's point-colouring input, and the improvement chart's series —
computes the identical value, namely the spec's
`improvement_pct(item) = original>0 ? (original-optimized)/original*100 : 0`
with a missing or null impact treated as both congestions being 0. -/
theorem improvement_formula_consistent (l : List OptimizationResult) :
    metricsImprovements l = l.map improvement_pct ∧
    pieImprovements l = l.map improvement_pct ∧
    scatterImprovements l = l.map improvement_pct ∧
    improvementChartImprovements l = l.map improvement_pct :=
  ⟨metricsImprovements_eq l, pieImprovements_eq l, scatterImprovements_eq l,
   improvementChartImprovements_eq l⟩

/-- C2: for every non-empty batch, the aggregator's `avg_reduction_pct` is the
reduction of the arithmetic means (missing impact contributing congestion 0):
`mean(original)>0 ? (mean(original)-mean(optimized))/mean(original)*100 : 0`. -/
theorem avg_reduction_is_reduction_of_means (l : List OptimizationResult)
    (h : l ≠ []) :
    avgReduction l =
      if meanQ (l.map impactOriginal) > 0 then
        (meanQ (l.map impactOriginal) - meanQ (l.map impactOptimized)) /
          meanQ (l.map impactOriginal) * 100
      else 0 := by
  have e1 : avgOriginalCongestion l = meanQ (l.map impactOriginal) := by
    rw [avgOriginalCongestion, meanQ, foldl_add_eq_sum, zero_add]
  have e2 : avgOptimizedCongestion l = meanQ (l.map impactOptimized) := by
    rw [avgOptimizedCongestion, meanQ, foldl_add_eq_sum, zero_add]
  rw [avgReduction, e1, e2]

/-- C2 witness: the reduction-of-means equation instantiated at a concrete
one-element batch. -/
theorem avg_reduction_is_reduction_of_means_witness :
    ([itemWithImpact] ≠ []) ∧
    avgReduction [itemWithImpact] =
      (if meanQ ([itemWithImpact].map impactOriginal) > 0 then
        (meanQ ([itemWithImpact].map impactOriginal) -
            meanQ ([itemWithImpact].map impactOptimized)) /
          meanQ ([itemWithImpact].map impactOriginal) * 100
      else 0) :=
  ⟨by decide, avg_reduction_is_reduction_of_means [itemWithImpact] (by decide)⟩

/-- C4 counterexample: the claim says that after a failed request the
previously displayed Results remain visible.  In the code `showLoading` sets
the results and charts sections to `display:none` at request start, and the
failure path's `hideLoading` never restores them: starting from a state with
Results visible, after the failed request the results section is hidden. -/
theorem failure_hides_previous_results_cex :
    stateResultsShown.resultsVisible = true ∧
    ((evaluateFailure stateResultsShown "HTTP error! status: 500").1).resultsVisible
        = false ∧
    ((evaluateFailure stateResultsShown "HTTP error! status: 500").1).chartsVisible
        = false :=
  ⟨rfl, rfl, rfl⟩

/-- C4 amended: for every failed request the orchestrator exits the Loading
state (spinner hidden, rotation interval cancelled), surfaces a notification
carrying the failure reason, and leaves the stored ResultBatch, table, cards
and current chart unchanged — but the results and charts sections, hidden
when the request started, stay hidden (the previous Results' content is not
cleared, yet it is not visible). -/
theorem failure_exits_loading_preserves_store (s : UIState) (msg : String) :
    (evaluateFailure s msg).1.loadingVisible = false ∧
    (evaluateFailure s msg).1.intervalActive = false ∧
    (evaluateFailure s msg).2 = "Error: " ++ msg ∧
    (evaluateFailure s msg).1.latestResults = s.latestResults ∧
    (evaluateFailure s msg).1.table = s.table ∧
    (evaluateFailure s msg).1.cards = s.cards ∧
    (evaluateFailure s msg).1.currentChart = s.currentChart ∧
    (evaluateFailure s msg).1.selectedChartKind = s.selectedChartKind ∧
    (evaluateFailure s msg).1.resultsVisible = false ∧
    (evaluateFailure s msg).1.chartsVisible = false :=
  ⟨rfl, rfl, rfl, rfl, rfl, rfl, rfl, rfl, rfl, rfl⟩

/-- C10: a null `optimization` and a null `impact` are replaced by the
literal string `"N/A"` in the formatted row, before column derivation. -/
theorem null_fields_format_na (item : OptimizationResult) :
    (item.optimization = none → (formatRow item).optimization = "N/A") ∧
    (item.impact = none → (formatRow item).impact = "N/A") := by
  constructor <;> intro h <;>
    simp [formatRow, formatOptimizationData, formatImpactData, h]

/-- C10 witness: both substitutions at a concrete all-null item. -/
theorem null_fields_format_na_witness :
    (formatRow itemNoImpact).optimization = "N/A" ∧
    (formatRow itemNoImpact).impact = "N/A" :=
  ⟨(null_fields_format_na itemNoImpact).1 rfl,
   (null_fields_format_na itemNoImpact).2 rfl⟩

/-- C5 counterexample: the claim says that on the empty batch the Table
Formatter renders zero rows and none of the seven chart builders throws.  In
the code `Object.keys(formattedData[0])` and `latestResults[0].impact`
dereference `undefined` on the empty batch, so the Table Formatter and the
Bar and Line builders throw (`none`). -/
theorem empty_batch_throws_cex :
    formatTableData ([] : List OptimizationResult) = none ∧
    updateChart ChartKind.bar [] = none ∧
    updateChart ChartKind.line [] = none ∧
    showResults stateResultsShown [] = none :=
  ⟨rfl, rfl, rfl, rfl⟩

/-- C5 amended: on the empty batch the Metrics Aggregator performs no
mutation, and the pie, stacked, scatter, comparison and improvement builders
do not throw; but the Table Formatter's column derivation throws instead of
rendering zero rows, and the Bar and Line builders throw on the missing
first item. -/
theorem empty_batch_behavior (s : UIState) (h : s.latestResults = []) :
    updateMetricsCards s = s ∧
    formatTableData ([] : List OptimizationResult) = none ∧
    updateChart ChartKind.bar [] = none ∧
    updateChart ChartKind.line [] = none ∧
    (updateChart ChartKind.pie []).isSome = true ∧
    (updateChart ChartKind.stacked []).isSome = true ∧
    (updateChart ChartKind.scatter []).isSome = true ∧
    (updateChart ChartKind.comparison []).isSome = true ∧
    (updateChart ChartKind.improvement []).isSome = true := by
  refine ⟨?_, rfl, rfl, rfl, rfl, rfl, rfl, rfl, rfl⟩
  simp [updateMetricsCards, h]

/-- C5 witness: the amended empty-batch behaviour at a concrete Idle state. -/
theorem empty_batch_behavior_witness :
    updateMetricsCards stateIdleEmpty = stateIdleEmpty ∧
    formatTableData ([] : List OptimizationResult) = none ∧
    updateChart ChartKind.bar [] = none ∧
    updateChart ChartKind.line [] = none ∧
    (updateChart ChartKind.pie []).isSome = true ∧
    (updateChart ChartKind.stacked []).isSome = true ∧
    (updateChart ChartKind.scatter []).isSome = true ∧
    (updateChart ChartKind.comparison []).isSome = true ∧
    (updateChart ChartKind.improvement []).isSome = true :=
  empty_batch_behavior stateIdleEmpty rfl

/-- C8: for every batch the five pie-chart category counts sum to the batch
length; every improvement percentage falls in exactly one of the five
buckets; boundaries are inclusive on the lower bound (50, 25, 10, 0), and an
improvement of exactly 0 is classified Low, not NoImprovement. -/
theorem pie_buckets_partition_and_sum (l : List OptimizationResult) :
    ((createPieChart l).data).sum = l.length ∧
    (∀ pct : ℚ,
      ((if excellentPred pct = true then 1 else 0) +
       (if goodPred pct = true then 1 else 0) +
       (if moderatePred pct = true then 1 else 0) +
       (if lowPred pct = true then 1 else 0) +
       (if noImprovementPred pct = true then 1 else 0) : ℕ) = 1) ∧
    lowPred 0 = true ∧ excellentPred 0 = false ∧ goodPred 0 = false ∧
    moderatePred 0 = false ∧ noImprovementPred 0 = false ∧
    excellentPred 50 = true ∧ goodPred 50 = false ∧
    goodPred 25 = true ∧ moderatePred 25 = false ∧
    moderatePred 10 = true ∧ lowPred 10 = false := by
  refine ⟨?_, pieBucket_pointwise, by decide, by decide, by decide, by decide,
    by decide, by decide, by decide, by decide, by decide, by decide, by decide⟩
  have hs : ((createPieChart l).data).sum =
      ((pieImprovements l).filter excellentPred).length +
        (((pieImprovements l).filter goodPred).length +
          (((pieImprovements l).filter moderatePred).length +
            (((pieImprovements l).filter lowPred).length +
              ((pieImprovements l).filter noImprovementPred).length))) := by
    simp [createPieChart]
  rw [hs]
  have := pie_filter_sum (pieImprovements l)
  have hl : (pieImprovements l).length = l.length := List.length_map l _
  omega

/-- C9 counterexample: the claim says every item with improvement ≥ 0 gets
the one non-negative colour.  The code colours with `value > 0`, so two items
with improvements 80 and 0 — both ≥ 0 — receive different colours. -/
theorem improvement_zero_color_cex :
    (createImprovementChart [itemWithImpact, itemZeroImprovement]).data
        = [80, 0] ∧
    (0:ℚ) ≤ 80 ∧ (0:ℚ) ≤ 0 ∧
    (createImprovementChart [itemWithImpact, itemZeroImprovement]).backgroundColor
        = ["rgba(75, 192, 192, 0.8)", "rgba(255, 99, 132, 0.8)"] ∧
    "rgba(75, 192, 192, 0.8)" ≠ "rgba(255, 99, 132, 0.8)" := by
  have h1 : improvementChartImprovements [itemWithImpact, itemZeroImprovement]
      = [80, 0] := by
    simp [improvementChartImprovements, impactOriginal, impactOptimized,
      itemWithImpact, itemZeroImprovement]
    norm_num
  refine ⟨?_, by norm_num, le_rfl, ?_, by decide⟩
  · simp [createImprovementChart, h1]
  · simp [createImprovementChart, h1]
    try norm_num

/-- C9 amended: the improvement chart emits the single series
`improvement_pct(item)` per item, and each bar's colour is chosen by a binary
rule distinguishing strictly positive from non-positive values: improvement
> 0 gets the teal colour and improvement ≤ 0 (including exactly 0) gets the
red colour. -/
theorem improvement_colors_positive_vs_nonpositive (d : OptimizationResult)
    (ds : List OptimizationResult) :
    (createImprovementChart (d :: ds)).data = (d :: ds).map improvement_pct ∧
    (createImprovementChart (d :: ds)).backgroundColor =
      ((d :: ds).map improvement_pct).map (fun value =>
        if 0 < value then "rgba(75, 192, 192, 0.8)"
        else "rgba(255, 99, 132, 0.8)") ∧
    (createImprovementChart (d :: ds)).borderColor =
      ((d :: ds).map improvement_pct).map (fun value =>
        if 0 < value then "rgba(75, 192, 192, 1)"
        else "rgba(255, 99, 132, 1)") := by
  refine ⟨?_, ?_, ?_⟩ <;>
    simp [createImprovementChart, improvementChartImprovements_eq]

/-- C7: the scatter builder's synthetic reference series consists exactly of
the points (0,0) and (m,m), where m is the maximum over all original and
optimized congestion values of the batch (missing impact contributing 0). -/
theorem scatter_reference_diagonal (l : List OptimizationResult) (m : ℚ)
    (hmem : m ∈ l.map impactOriginal ++ l.map impactOptimized)
    (hub : ∀ x ∈ l.map impactOriginal ++ l.map impactOptimized, x ≤ m) :
    (createScatterChart l).refPoints =
      [(JNum.num 0, JNum.num 0), (JNum.num m, JNum.num m)] := by
  have hmax : jsMaxQ (l.map impactOriginal ++ l.map impactOptimized)
      = JNum.num m := jsMaxQ_eq_max _ m hmem hub
  simp [createScatterChart, hmax, jmulNat, List.range_succ]

/-- C7 witness: a batch whose maximum congestion value is 10 yields the
reference points (0,0) and (10,10) exactly. -/
theorem scatter_reference_diagonal_witness :
    (createScatterChart [itemWithImpact]).refPoints =
      [(JNum.num 0, JNum.num 0), (JNum.num 10, JNum.num 10)] :=
  scatter_reference_diagonal [itemWithImpact] 10 (by decide) (by decide)

/-- C6: for every non-empty batch the Bar and Line builders emit the two
congestion series exactly when the first item has a non-null impact (and none
otherwise, regardless of later items), while the label sequence
`"Sensor {i+1}"` is emitted for every item either way. -/
theorem bar_line_first_item_gates_series (d : OptimizationResult)
    (ds : List OptimizationResult) :
    ∃ barSpec lineSpec,
      createBarChart (d :: ds) = some barSpec ∧
      createLineChart (d :: ds) = some lineSpec ∧
      barSpec.labels = sensorLabels (d :: ds) ∧
      lineSpec.labels = sensorLabels (d :: ds) ∧
      barSpec.datasets.map Series.data =
        (if d.impact.isSome then
          [(d :: ds).map impactOriginal, (d :: ds).map impactOptimized]
        else []) ∧
      barSpec.datasets.map Series.label =
        (if d.impact.isSome then ["Original Congestion", "Optimized Congestion"]
        else []) ∧
      lineSpec.datasets.map Series.data =
        (if d.impact.isSome then
          [(d :: ds).map impactOriginal, (d :: ds).map impactOptimized]
        else []) ∧
      lineSpec.datasets.map Series.label =
        (if d.impact.isSome then ["Original Congestion", "Optimized Congestion"]
        else []) := by
  refine ⟨_, _, rfl, rfl, rfl, rfl, ?_, ?_, ?_, ?_⟩ <;>
    cases h : d.impact <;> simp [h]

/-- The Metrics Aggregator never touches the Result Store. -/
theorem updateMetricsCards_latestResults (s : UIState) :
    (updateMetricsCards s).latestResults = s.latestResults := by
  unfold updateMetricsCards
  split <;> rfl

/-- The chart-type `change` listener with a non-empty Result Store: the radio
selection is recorded and only the chart is rebuilt. -/
theorem onChartTypeChange_cons (s : UIState) (k : ChartKind)
    (h : s.latestResults ≠ []) (ch : ChartSpec)
    (hch : updateChart k s.latestResults = some ch) :
    onChartTypeChange s k =
      some { s with selectedChartKind := k, currentChart := some ch } := by
  have hlen : 0 < s.latestResults.length := List.length_pos.mpr h
  simp [onChartTypeChange, hlen, hch]

/-- C3 counterexample: the claim says that on entering Results the Builder
runs for the currently-selected chart kind.  In the code `showResults` calls
`updateChart("bar")` unconditionally: starting from a state whose selected
kind is Pie, the chart built on entering Results is the Bar chart, which
differs from the Pie chart for the same batch. -/
theorem enter_results_ignores_selected_kind_cex :
    statePieSelected.selectedChartKind = ChartKind.pie ∧
    (showResults statePieSelected [itemWithImpact]).map UIState.currentChart
        = some (updateChart ChartKind.bar [itemWithImpact]) ∧
    updateChart ChartKind.bar [itemWithImpact]
        ≠ updateChart ChartKind.pie [itemWithImpact] := by
  refine ⟨rfl, rfl, ?_⟩
  intro h
  simp only [updateChart] at h
  rcases hcb : createBarChart [itemWithImpact] with _ | spec <;>
    rw [hcb] at h <;> simp at h

/-- C3 amended: on entering Results after a successful fetch the orchestrator
runs the Table Formatter and the Metrics Aggregator once and the Chart
Projection Builder for the Bar kind unconditionally — not for the
currently-selected kind, which it ignores; a later chart-kind selection while
in Results re-runs only the Builder against the same stored ResultBatch
(table and cards untouched, no refetch). -/
theorem enter_results_runs_bar_then_switch_rebuilds (s : UIState)
    (data : List OptimizationResult) (h : data ≠ []) (k : ChartKind) :
    ∃ s', showResults s data = some s' ∧
      s'.latestResults = data ∧
      s'.table = formatTableData data ∧
      s'.cards = computeMetricsCards data ∧
      s'.currentChart = updateChart ChartKind.bar data ∧
      ∃ s'', onChartTypeChange s' k = some s'' ∧
        s''.selectedChartKind = k ∧
        s''.currentChart = updateChart k data ∧
        s''.latestResults = s'.latestResults ∧
        s''.table = s'.table ∧
        s''.cards = s'.cards := by
  match data, h with
  | d :: ds, _ =>
    obtain ⟨chK, hchK⟩ :=
      Option.isSome_iff_exists.mp (updateChart_isSome_of_ne_nil k d ds)
    refine ⟨_, rfl, rfl, rfl, rfl, rfl, ?_⟩
    exact ⟨_, onChartTypeChange_cons _ k
        (by rw [updateMetricsCards_latestResults]; simp) chK hchK,
      rfl, hchK.symm, rfl, rfl, rfl⟩

/-- C3 witness: the amended behaviour at a concrete state whose selected kind
is Pie, with a one-element batch and a subsequent switch to Pie. -/
theorem enter_results_runs_bar_then_switch_rebuilds_witness :
    ∃ s', showResults statePieSelected [itemWithImpact] = some s' ∧
      s'.latestResults = [itemWithImpact] ∧
      s'.table = formatTableData [itemWithImpact] ∧
      s'.cards = computeMetricsCards [itemWithImpact] ∧
      s'.currentChart = updateChart ChartKind.bar [itemWithImpact] ∧
      ∃ s'', onChartTypeChange s' ChartKind.pie = some s'' ∧
        s''.selectedChartKind = ChartKind.pie ∧
        s''.currentChart = updateChart ChartKind.pie [itemWithImpact] ∧
        s''.latestResults = s'.latestResults ∧
        s''.table = s'.table ∧
        s''.cards = s'.cards :=
  enter_results_runs_bar_then_switch_rebuilds statePieSelected [itemWithImpact]
    (by decide) ChartKind.pie
